import Mathlib

/-!
Verification of the med-connect appointment slot-availability and booking
model.  The definitions below are a shallow embedding of the client-side
booking logic: the availability resolver (`getAvailableTimesForDate`), the
HTTP slot check (`checkSlotAvailable`), the booking writer (`handleSubmit`),
the cancellation handler (`handleCancelAppointment`) and the appointment
store actions (`bookNewAppointment`, `cancelUserAppointment`,
`updateAppointmentStatus`).  Network interaction is made explicit: each
function takes the outcome of the HTTP round trips it performs as a
parameter, and records whether a given endpoint was actually called.
-/

namespace MedConnect

/-- Instants are milliseconds since the Unix epoch, as `Date.getTime()`. -/
abbrev Instant := Int

def msPerDay : Int := 86400000

def msPerHour : Int := 3600000

/-- Reading of `format(d, 'yyyy-MM-dd')` in the fixed operating timezone:
two instants print the same calendar date exactly when they fall in the same
day bucket. -/
def calendarDate (i : Instant) : Int :=
  Int.fdiv i msPerDay

/-- Business hours (8am to 5pm, 1-hour slots), the fixed 9-slot catalogue. -/
def BUSINESS_HOURS : List String :=
  ["08:00", "09:00", "10:00", "11:00",
   "12:00", "13:00", "14:00", "15:00", "16:00"]

/-- Outcome of a fetch of `/appointments/available/:doctorId/:dateTime`:
the fetch promise rejects, the response is non-2xx, or a parsed JSON body
whose `isAvailable` field is `some b` when present as a boolean and `none`
for any other body shape. -/
inductive FetchOutcome where
  | netError : FetchOutcome
  | httpError : FetchOutcome
  | ok : Option Bool → FetchOutcome
deriving DecidableEq, Repr

/-- Embedding of `checkSlotAvailable` (src/App.tsx): a rejected fetch and a
non-2xx response are caught and yield `false`; otherwise the result is
`result.isAvailable === true`. -/
def checkSlotAvailable : FetchOutcome → Bool
  | .netError => false
  | .httpError => false
  | .ok body => body == some true

/-- Result of the availability resolver: the two state updates
`setAvailableTimesForDate` / `setBookedTimesForDate`, plus the list of slot
labels for which a per-slot availability check request was issued. -/
structure SlotPartition where
  available : List String
  booked : List String
  checksIssued : List String
deriving DecidableEq, Repr

/-- Day-level gate of `getAvailableTimesForDate`: some availability entry
prints the same calendar date as the selected date (entries that fail to
parse, modelled `none`, never match). -/
def isDayAvailable (availabilities : List (Option Instant)) (date : Instant) : Bool :=
  availabilities.any fun s =>
    match s with
    | some i => calendarDate i == calendarDate date
    | none => false

/-- Embedding of `getAvailableTimesForDate` (BookingModal): if the selected
date is not in the day-level availability set, all 9 slots are booked and no
check is issued; otherwise one check per catalogue slot is issued and
awaited (`batch = .ok oracle` giving each slot's fetch outcome), and slots
are partitioned by the boolean result; if the whole batch throws
(`batch = .error`), the day falls back to all slots available. -/
def getAvailableTimesForDate (availabilities : List (Option Instant))
    (date : Instant) (batch : Except Unit (String → FetchOutcome)) :
    SlotPartition :=
  if isDayAvailable availabilities date = false then
    { available := [], booked := BUSINESS_HOURS, checksIssued := [] }
  else
    match batch with
    | .error _ =>
        { available := BUSINESS_HOURS, booked := [], checksIssued := BUSINESS_HOURS }
    | .ok oracle =>
        let results := BUSINESS_HOURS.map fun t => (t, checkSlotAvailable (oracle t))
        { available := (results.filter fun r => r.2).map fun r => r.1,
          booked := (results.filter fun r => !r.2).map fun r => r.1,
          checksIssued := BUSINESS_HOURS }

/-- Appointment record (src/types/appointment.ts), required fields. -/
structure Appointment where
  id : String
  doctorId : String
  patientName : String
  patientEmail : String
  patientPhone : String
  date : String
  time : String
  status : String
  dateTime : String
  createdAt : String
deriving DecidableEq, Repr

/-- Booking request body (src/types/appointment.ts). -/
structure BookingRequest where
  doctorId : String
  userId : String
  dateTime : String
  patientName : String
  patientEmail : String
  patientPhone : String
  date : String
  time : String
  reason : String
deriving DecidableEq, Repr

/-- Client-side appointment store state (appointmentStore). -/
structure StoreState where
  appointments : List Appointment
  loading : Bool
  error : Option String
deriving DecidableEq, Repr

/-- Embedding of the store action `bookNewAppointment`: validates the
request, refuses while loading, otherwise calls the create-appointment
endpoint (`server` is its outcome) and on success appends the returned
appointment.  Returns the new state, the propagated result, and whether the
endpoint was called. -/
def bookNewAppointment (data : BookingRequest)
    (server : Except String Appointment) (s : StoreState) :
    StoreState × Except String Appointment × Bool :=
  if data.doctorId = "" || data.patientName = "" || data.patientEmail = "" then
    (s, .error "Invalid appointment data", false)
  else if s.loading then
    (s, .error "Operation in progress", false)
  else
    match server with
    | .ok a =>
        ({ appointments := s.appointments ++ [a], loading := false, error := none },
         .ok a, true)
    | .error e =>
        ({ s with loading := false, error := some e }, .error e, true)

/-- Embedding of the store action `cancelUserAppointment`: calls the cancel
endpoint and on success replaces every stored appointment whose id matches
by the returned record.  Returns the new state and whether the endpoint was
called. -/
def cancelUserAppointment (appointmentId : String)
    (server : Except String Appointment) (s : StoreState) :
    StoreState × Bool :=
  if appointmentId = "" then
    (s, false)
  else if s.loading then
    (s, false)
  else
    match server with
    | .ok c =>
        ({ appointments := s.appointments.map fun ap =>
             if ap.id = appointmentId then c else ap,
           loading := false, error := none }, true)
    | .error e =>
        ({ s with loading := false, error := some e }, true)

/-- Embedding of the store action `updateAppointmentStatus`: calls the
status-update endpoint and on success replaces every stored appointment
whose id matches by the returned record.  Returns the new state, whether
the endpoint was called, and the propagated success or re-thrown error. -/
def updateAppointmentStatus (appointmentId : String) (_status : String)
    (server : Except String Appointment) (s : StoreState) :
    StoreState × Bool × Except String Unit :=
  if appointmentId = "" then
    (s, false, .ok ())
  else if s.loading then
    (s, false, .ok ())
  else
    match server with
    | .ok u =>
        ({ appointments := s.appointments.map fun ap =>
             if ap.id = appointmentId then u else ap,
           loading := false, error := none }, true, .ok ())
    | .error e =>
        ({ s with loading := false, error := some e }, true, .error e)

/-- Booking-modal UI steps. -/
inductive Step where
  | calendar : Step
  | time : Step
  | form : Step
  | success : Step
deriving DecidableEq, Repr

def conflictMsg : String :=
  "Sorry, this time slot was just booked by someone else. Please select another time."

def bookingErrorMsg : String :=
  "Sorry, there was an error booking your appointment. Please try again."

/-- Result of one run of the booking submit handler: the UI step it leaves
the modal in, the alert raised (if any), the resulting store state, whether
the create-appointment endpoint was called, and the submit flag. -/
structure SubmitOutcome where
  step : Step
  alertMsg : Option String
  store : StoreState
  createCalled : Bool
  isSubmitting : Bool
deriving DecidableEq, Repr

/-- Embedding of `handleSubmit` (BookingModal): performs the final pre-write
single-slot check (`finalCheck` its fetch outcome); if it reports
unavailable, alerts the conflict message, returns to slot selection and does
not write; otherwise books through the store and on error remains on the
form with the generic error alert. -/
def handleSubmit (finalCheck : FetchOutcome) (data : BookingRequest)
    (server : Except String Appointment) (s : StoreState) : SubmitOutcome :=
  if checkSlotAvailable finalCheck = false then
    { step := .time, alertMsg := some conflictMsg, store := s,
      createCalled := false, isSubmitting := false }
  else
    match bookNewAppointment data server s with
    | (s2, .ok _, called) =>
        { step := .success, alertMsg := none, store := s2,
          createCalled := called, isSubmitting := false }
    | (s2, .error _, called) =>
        { step := .form, alertMsg := some bookingErrorMsg, store := s2,
          createCalled := called, isSubmitting := false }

def cancelWindowMsg : String :=
  "Appointments can only be cancelled at least 2 hours before the scheduled time."

def cancelFailMsg : String :=
  "Failed to cancel the appointment. Please try again."

/-- Result of one run of the cancellation handler: the alert raised (if
any), the resulting store state, and whether the status-update endpoint was
called. -/
structure CancelOutcome where
  alertMsg : Option String
  store : StoreState
  statusUpdateSent : Bool
deriving DecidableEq, Repr

/-- Embedding of `handleCancelAppointment` (AppointmentList): if the
appointment instant is less than 2 hours after now, alerts the window
message and stops; otherwise, once the user confirms, updates the status to
cancelled through the store, alerting the failure message if that throws. -/
def handleCancelAppointment (appointmentId : String)
    (apptMs nowMs : Instant) (confirmed : Bool)
    (server : Except String Appointment) (s : StoreState) : CancelOutcome :=
  if apptMs - nowMs < 2 * msPerHour then
    { alertMsg := some cancelWindowMsg, store := s, statusUpdateSent := false }
  else if confirmed then
    match updateAppointmentStatus appointmentId "cancelled" server s with
    | (s2, sent, .ok _) =>
        { alertMsg := none, store := s2, statusUpdateSent := sent }
    | (s2, sent, .error _) =>
        { alertMsg := some cancelFailMsg, store := s2, statusUpdateSent := sent }
  else
    { alertMsg := none, store := s, statusUpdateSent := false }

/-! Helper lemmas about the availability resolver. -/

/-- A calendar-date match in the availability set makes the day gate pass. -/
theorem isDayAvailable_of_mem {availabilities : List (Option Instant)}
    {date : Instant}
    (h : ∃ i : Instant, some i ∈ availabilities ∧ calendarDate i = calendarDate date) :
    isDayAvailable availabilities date = true := by
  obtain ⟨i, hmem, heq⟩ := h
  simp only [isDayAvailable, List.any_eq_true]
  exact ⟨some i, hmem, by simp [heq]⟩

/-- Membership in the available list, on a day that passes the gate. -/
theorem mem_available_iff (availabilities : List (Option Instant)) (date : Instant)
    (oracle : String → FetchOutcome) (t : String)
    (hday : isDayAvailable availabilities date = true) :
    t ∈ (getAvailableTimesForDate availabilities date (.ok oracle)).available ↔
      t ∈ BUSINESS_HOURS ∧ checkSlotAvailable (oracle t) = true := by
  simp only [getAvailableTimesForDate, hday, Bool.true_eq_false, if_false,
    List.mem_map, List.mem_filter, Prod.exists]
  constructor
  · rintro ⟨u, b, ⟨⟨v, hv, hveq⟩, hb⟩, rfl⟩
    injection hveq with h1 h2
    subst h1
    subst h2
    exact ⟨hv, hb⟩
  · rintro ⟨ht, hc⟩
    exact ⟨t, checkSlotAvailable (oracle t), ⟨⟨t, ht, rfl⟩, hc⟩, rfl⟩

/-- Membership in the booked list, on a day that passes the gate. -/
theorem mem_booked_iff (availabilities : List (Option Instant)) (date : Instant)
    (oracle : String → FetchOutcome) (t : String)
    (hday : isDayAvailable availabilities date = true) :
    t ∈ (getAvailableTimesForDate availabilities date (.ok oracle)).booked ↔
      t ∈ BUSINESS_HOURS ∧ checkSlotAvailable (oracle t) = false := by
  simp only [getAvailableTimesForDate, hday, Bool.true_eq_false, if_false,
    List.mem_map, List.mem_filter, Prod.exists]
  constructor
  · rintro ⟨u, b, ⟨⟨v, hv, hveq⟩, hb⟩, rfl⟩
    injection hveq with h1 h2
    subst h1
    subst h2
    exact ⟨hv, by simpa using hb⟩
  · rintro ⟨ht, hc⟩
    exact ⟨t, checkSlotAvailable (oracle t), ⟨⟨t, ht, rfl⟩, by simp [hc]⟩, rfl⟩

/-! Concrete sample values used by the witness theorems. -/

def appt0 : Appointment :=
  { id := "a1", doctorId := "d1", patientName := "Pat Doe",
    patientEmail := "pat@example.com", patientPhone := "5550000",
    date := "2025-04-25", time := "10:00", status := "confirmed",
    dateTime := "2025-04-25T15:00:00Z", createdAt := "2025-04-01T00:00:00Z" }

def cancelled0 : Appointment :=
  { appt0 with status := "cancelled" }

def req0 : BookingRequest :=
  { doctorId := "d1", userId := "user123", dateTime := "2025-04-25T15:00:00Z",
    patientName := "Pat Doe", patientEmail := "pat@example.com",
    patientPhone := "5550000", date := "2025-04-25", time := "10:00",
    reason := "" }

def store0 : StoreState :=
  { appointments := [appt0], loading := false, error := none }

/-! Claim theorems. -/

/-- C9: `checkSlotAvailable` is a total Boolean function of the fetch
outcome, returning `true` exactly when the HTTP response is successful and
the parsed body's `isAvailable` field equals `true`; any network failure,
non-2xx response, or other body shape yields `false` (fail-closed). -/
theorem checkSlotAvailable_spec (o : FetchOutcome) :
    checkSlotAvailable o = true ↔ o = .ok (some true) := by
  cases o with
  | netError => simp [checkSlotAvailable]
  | httpError => simp [checkSlotAvailable]
  | ok body => cases body <;> simp [checkSlotAvailable]

/-- C3: when the selected date matches no availability entry by
calendar-date equality (ignoring time-of-day), the resolver returns an
empty available list, all 9 catalogue slots as booked, and issues no
per-slot availability-check calls. -/
theorem resolver_day_gate (availabilities : List (Option Instant))
    (date : Instant) (batch : Except Unit (String → FetchOutcome))
    (h : ∀ i : Instant, some i ∈ availabilities →
      calendarDate i ≠ calendarDate date) :
    getAvailableTimesForDate availabilities date batch =
      { available := [], booked := BUSINESS_HOURS, checksIssued := [] } := by
  have hday : isDayAvailable availabilities date = false := by
    simp only [isDayAvailable, List.any_eq_false]
    intro s hs
    cases s with
    | none => simp
    | some i => simpa using h i hs
  simp [getAvailableTimesForDate, hday]

/-- C3 witness: a concrete date one day after the only availability entry
yields the all-booked, zero-calls result. -/
theorem resolver_day_gate_witness :
    getAvailableTimesForDate [some 0] 86400000 (.ok fun _ => .ok (some true)) =
      { available := [], booked := BUSINESS_HOURS, checksIssued := [] } :=
  resolver_day_gate _ _ _ (by
    intro i hi
    simp only [List.mem_singleton, Option.some.injEq] at hi
    subst hi
    decide)

/-- C7: when the day passes the gate but the whole batch of per-slot checks
throws, the resolver falls back to fail-open for the day: all 9 slots
available and an empty booked list. -/
theorem resolver_batch_fallback (availabilities : List (Option Instant))
    (date : Instant)
    (hday : ∃ i : Instant, some i ∈ availabilities ∧
      calendarDate i = calendarDate date) :
    getAvailableTimesForDate availabilities date (.error ()) =
      { available := BUSINESS_HOURS, booked := [],
        checksIssued := BUSINESS_HOURS } := by
  simp [getAvailableTimesForDate, isDayAvailable_of_mem hday]

/-- C7 witness: concrete throwing batch on an available day. -/
theorem resolver_batch_fallback_witness :
    getAvailableTimesForDate [some 0] 0 (.error ()) =
      { available := BUSINESS_HOURS, booked := [],
        checksIssued := BUSINESS_HOURS } :=
  resolver_batch_fallback _ _ ⟨0, by simp, rfl⟩

/-- C8: the resolver is a deterministic function of the availability set,
the date, and the per-slot check responses: two runs against oracles that
agree on every catalogue slot produce the same partition. -/
theorem resolver_idempotent (availabilities : List (Option Instant))
    (date : Instant) (o1 o2 : String → FetchOutcome)
    (h : ∀ t ∈ BUSINESS_HOURS, o1 t = o2 t) :
    getAvailableTimesForDate availabilities date (.ok o1) =
      getAvailableTimesForDate availabilities date (.ok o2) := by
  have hmap : BUSINESS_HOURS.map (fun t => (t, checkSlotAvailable (o1 t))) =
      BUSINESS_HOURS.map (fun t => (t, checkSlotAvailable (o2 t))) :=
    List.map_congr_left fun t ht => by rw [h t ht]
  simp only [getAvailableTimesForDate]
  rw [hmap]

/-- C8 witness: two oracles that differ only on a non-catalogue label give
identical partitions on a concrete available day. -/
theorem resolver_idempotent_witness :
    getAvailableTimesForDate [some 0] 0
        (.ok fun t => if t = "99:99" then .netError else .ok (some true)) =
      getAvailableTimesForDate [some 0] 0 (.ok fun _ => .ok (some true)) :=
  resolver_idempotent _ _ _ _ (by decide)

/-- C4: on a date present in the availability set, the resolver's output
partitions the fixed 9-slot catalogue: a label is in the available or
booked list exactly when it is a catalogue slot, and no label is in both. -/
theorem resolver_partition (availabilities : List (Option Instant))
    (date : Instant) (batch : Except Unit (String → FetchOutcome))
    (hday : ∃ i : Instant, some i ∈ availabilities ∧
      calendarDate i = calendarDate date) :
    (∀ t : String,
      (t ∈ (getAvailableTimesForDate availabilities date batch).available ∨
       t ∈ (getAvailableTimesForDate availabilities date batch).booked) ↔
      t ∈ BUSINESS_HOURS) ∧
    (∀ t : String,
      t ∈ (getAvailableTimesForDate availabilities date batch).available →
      t ∉ (getAvailableTimesForDate availabilities date batch).booked) := by
  have hd := isDayAvailable_of_mem hday
  cases batch with
  | error u =>
    constructor
    · intro t
      simp [getAvailableTimesForDate, hd]
    · intro t hav hbk
      simp [getAvailableTimesForDate, hd] at hbk
  | ok oracle =>
    constructor
    · intro t
      rw [mem_available_iff availabilities date oracle t hd,
        mem_booked_iff availabilities date oracle t hd]
      cases hc : checkSlotAvailable (oracle t) <;> simp [hc]
    · intro t hav hbk
      rw [mem_available_iff availabilities date oracle t hd] at hav
      rw [mem_booked_iff availabilities date oracle t hd] at hbk
      rw [hav.2] at hbk
      exact absurd hbk.2 (by simp)

/-- C4 witness: on a concrete available day, the label 10:00 lies on
exactly one side of the partition and non-catalogue labels on neither. -/
theorem resolver_partition_witness :
    (("10:00" ∈ (getAvailableTimesForDate [some 0] 0
          (.ok fun _ => .ok (some true))).available ∨
      "10:00" ∈ (getAvailableTimesForDate [some 0] 0
          (.ok fun _ => .ok (some true))).booked) ↔
      "10:00" ∈ BUSINESS_HOURS) ∧
    ("10:00" ∈ (getAvailableTimesForDate [some 0] 0
        (.ok fun _ => .ok (some true))).available →
      "10:00" ∉ (getAvailableTimesForDate [some 0] 0
        (.ok fun _ => .ok (some true))).booked) :=
  ⟨(resolver_partition [some 0] 0 (.ok fun _ => .ok (some true))
      ⟨0, by simp, rfl⟩).1 "10:00",
   (resolver_partition [some 0] 0 (.ok fun _ => .ok (some true))
      ⟨0, by simp, rfl⟩).2 "10:00"⟩

/-- Shared placement lemma: on a gated-open day, a catalogue slot lands on
exactly the side of the partition selected by its check's boolean result. -/
theorem placement_of_check (availabilities : List (Option Instant))
    (date : Instant) (oracle : String → FetchOutcome) (t : String)
    (hday : ∃ i : Instant, some i ∈ availabilities ∧
      calendarDate i = calendarDate date)
    (ht : t ∈ BUSINESS_HOURS) :
    (checkSlotAvailable (oracle t) = false →
      t ∈ (getAvailableTimesForDate availabilities date (.ok oracle)).booked ∧
      t ∉ (getAvailableTimesForDate availabilities date (.ok oracle)).available) ∧
    (checkSlotAvailable (oracle t) = true →
      t ∈ (getAvailableTimesForDate availabilities date (.ok oracle)).available ∧
      t ∉ (getAvailableTimesForDate availabilities date (.ok oracle)).booked) := by
  have hd := isDayAvailable_of_mem hday
  constructor
  · intro hc
    refine ⟨(mem_booked_iff availabilities date oracle t hd).2 ⟨ht, hc⟩, ?_⟩
    intro hav
    rw [mem_available_iff availabilities date oracle t hd] at hav
    rw [hc] at hav
    exact Bool.false_ne_true hav.2
  · intro hc
    refine ⟨(mem_available_iff availabilities date oracle t hd).2 ⟨ht, hc⟩, ?_⟩
    intro hbk
    rw [mem_booked_iff availabilities date oracle t hd] at hbk
    rw [hc] at hbk
    exact absurd hbk.2 (by simp)

/-- C5: on a date present in the availability set, a catalogue slot whose
per-slot check completes with result `false` lands in the booked list and
not in the available list, and one whose check completes with `true` lands
in the available list and not in the booked list. -/
theorem resolver_slot_placement (availabilities : List (Option Instant))
    (date : Instant) (oracle : String → FetchOutcome) (t : String)
    (hday : ∃ i : Instant, some i ∈ availabilities ∧
      calendarDate i = calendarDate date)
    (ht : t ∈ BUSINESS_HOURS) :
    (checkSlotAvailable (oracle t) = false →
      t ∈ (getAvailableTimesForDate availabilities date (.ok oracle)).booked ∧
      t ∉ (getAvailableTimesForDate availabilities date (.ok oracle)).available) ∧
    (checkSlotAvailable (oracle t) = true →
      t ∈ (getAvailableTimesForDate availabilities date (.ok oracle)).available ∧
      t ∉ (getAvailableTimesForDate availabilities date (.ok oracle)).booked) :=
  placement_of_check availabilities date oracle t hday ht

/-- C5 witness: with only the 10:00 check returning false on a concrete
available day, 10:00 is booked and not available. -/
theorem resolver_slot_placement_witness :
    "10:00" ∈ (getAvailableTimesForDate [some 0] 0
        (.ok fun t => if t = "10:00" then .ok (some false)
          else .ok (some true))).booked ∧
    "10:00" ∉ (getAvailableTimesForDate [some 0] 0
        (.ok fun t => if t = "10:00" then .ok (some false)
          else .ok (some true))).available :=
  (resolver_slot_placement [some 0] 0
      (fun t => if t = "10:00" then .ok (some false) else .ok (some true))
      "10:00" ⟨0, by simp, rfl⟩ (by decide)).1 (by decide)

/-- C2 counterexample: on a concrete available day where only the 08:00
check fails with a network error (and the batch itself does not throw),
the 08:00 slot is absent from the available list and present in the booked
list — the claimed fail-open treatment of an individually failing check
does not hold. -/
theorem slot_check_fail_not_failopen :
    "08:00" ∉ (getAvailableTimesForDate [some 0] 0
        (.ok fun t => if t = "08:00" then .netError
          else .ok (some true))).available ∧
    "08:00" ∈ (getAvailableTimesForDate [some 0] 0
        (.ok fun t => if t = "08:00" then .netError
          else .ok (some true))).booked := by
  decide

/-- C2 amended: on a date present in the availability set, when a
catalogue slot's individual check fails (network error or non-2xx
response) while the batch as a whole does not throw, the resolver treats
that slot as unavailable (fail-closed): it appears in the booked list, not
the available list. -/
theorem slot_check_fail_closed (availabilities : List (Option Instant))
    (date : Instant) (oracle : String → FetchOutcome) (t : String)
    (hday : ∃ i : Instant, some i ∈ availabilities ∧
      calendarDate i = calendarDate date)
    (ht : t ∈ BUSINESS_HOURS)
    (hfail : oracle t = .netError ∨ oracle t = .httpError) :
    t ∈ (getAvailableTimesForDate availabilities date (.ok oracle)).booked ∧
    t ∉ (getAvailableTimesForDate availabilities date (.ok oracle)).available := by
  have hc : checkSlotAvailable (oracle t) = false := by
    cases hfail with
    | inl h => rw [h]; rfl
    | inr h => rw [h]; rfl
  exact (placement_of_check availabilities date oracle t hday ht).1 hc

/-- C2 amended witness: the concrete failing 08:00 check on a concrete
available day is booked, not available. -/
theorem slot_check_fail_closed_witness :
    "08:00" ∈ (getAvailableTimesForDate [some 0] 0
        (.ok fun t => if t = "08:00" then .netError
          else .ok (some true))).booked ∧
    "08:00" ∉ (getAvailableTimesForDate [some 0] 0
        (.ok fun t => if t = "08:00" then .netError
          else .ok (some true))).available :=
  slot_check_fail_closed [some 0] 0
    (fun t => if t = "08:00" then .netError else .ok (some true))
    "08:00" ⟨0, by simp, rfl⟩ (by decide) (Or.inl (by decide))

/-- C1: when the final pre-write availability check reports the slot
unavailable, the booking submit handler aborts without calling the
create-appointment endpoint, raises the specific slot-just-taken conflict
alert, returns the UI to slot selection, and leaves the appointment store
unchanged. -/
theorem submit_conflict_aborts (finalCheck : FetchOutcome)
    (data : BookingRequest) (server : Except String Appointment)
    (s : StoreState) (h : checkSlotAvailable finalCheck = false) :
    handleSubmit finalCheck data server s =
      { step := .time, alertMsg := some conflictMsg, store := s,
        createCalled := false, isSubmitting := false } := by
  simp [handleSubmit, h]

/-- C1 witness: a concrete failed final check aborts a concrete booking. -/
theorem submit_conflict_aborts_witness :
    handleSubmit (.ok (some false)) req0 (.ok appt0) store0 =
      { step := .time, alertMsg := some conflictMsg, store := store0,
        createCalled := false, isSubmitting := false } :=
  submit_conflict_aborts (.ok (some false)) req0 (.ok appt0) store0 rfl

/-- C6: a cancellation attempt on an appointment less than 2 hours away is
rejected with the specific window message, sends no status update and
leaves the store unchanged; on an appointment at least 2 hours away, a
confirmed cancellation whose backend call succeeds sends the update and
replaces the target entry by the returned cancelled record, so every
stored appointment carrying the target id ends with status cancelled. -/
theorem cancellation_window (appointmentId : String)
    (apptMs nowMs : Instant) (confirmed : Bool)
    (server : Except String Appointment) (u : Appointment) (s : StoreState)
    (hid : appointmentId ≠ "") (hload : s.loading = false)
    (hu : u.status = "cancelled") :
    (apptMs - nowMs < 2 * msPerHour →
      handleCancelAppointment appointmentId apptMs nowMs confirmed server s =
        { alertMsg := some cancelWindowMsg, store := s,
          statusUpdateSent := false }) ∧
    (2 * msPerHour ≤ apptMs - nowMs →
      handleCancelAppointment appointmentId apptMs nowMs true (.ok u) s =
        { alertMsg := none,
          store := { appointments := s.appointments.map fun ap =>
                       if ap.id = appointmentId then u else ap,
                     loading := false, error := none },
          statusUpdateSent := true }) ∧
    (2 * msPerHour ≤ apptMs - nowMs →
      ∀ ap ∈ (handleCancelAppointment appointmentId apptMs nowMs true
          (.ok u) s).store.appointments,
        ap.id = appointmentId → ap.status = "cancelled") := by
  have hrun : 2 * msPerHour ≤ apptMs - nowMs →
      handleCancelAppointment appointmentId apptMs nowMs true (.ok u) s =
        { alertMsg := none,
          store := { appointments := s.appointments.map fun ap =>
                       if ap.id = appointmentId then u else ap,
                     loading := false, error := none },
          statusUpdateSent := true } := by
    intro hge
    have hnl : ¬ (apptMs - nowMs < 2 * msPerHour) := not_lt.2 hge
    simp [handleCancelAppointment, updateAppointmentStatus, hnl, hid, hload]
  refine ⟨?_, hrun, ?_⟩
  · intro hlt
    simp [handleCancelAppointment, hlt]
  · intro hge ap hap hapid
    rw [hrun hge] at hap
    simp only [List.mem_map] at hap
    obtain ⟨b, hb, hbeq⟩ := hap
    by_cases hbid : b.id = appointmentId
    · rw [if_pos hbid] at hbeq
      rw [← hbeq]
      exact hu
    · rw [if_neg hbid] at hbeq
      rw [← hbeq] at hapid
      exact absurd hapid hbid

/-- C6 witness: a concrete appointment 1 hour away is rejected with no
state change, while one exactly 2 hours away cancels and its stored entry
has status cancelled. -/
theorem cancellation_window_witness :
    (handleCancelAppointment "a1" 3600000 0 true (.ok cancelled0) store0 =
      { alertMsg := some cancelWindowMsg, store := store0,
        statusUpdateSent := false }) ∧
    (handleCancelAppointment "a1" 7200000 0 true (.ok cancelled0) store0 =
      { alertMsg := none,
        store := { appointments := store0.appointments.map fun ap =>
                     if ap.id = "a1" then cancelled0 else ap,
                   loading := false, error := none },
        statusUpdateSent := true }) :=
  ⟨(cancellation_window "a1" 3600000 0 true (.ok cancelled0) cancelled0
      store0 (by decide) rfl rfl).1 (by decide),
   (cancellation_window "a1" 7200000 0 true (.ok cancelled0) cancelled0
      store0 (by decide) rfl rfl).2.1 (by decide)⟩

/-- C10: store mutations touch only their target. `bookNewAppointment`
appends exactly the returned appointment on success and leaves the list
unchanged on failure; `cancelUserAppointment` and `updateAppointmentStatus`
on success replace exactly the entries whose id matches the given
appointment id, preserve every other entry, and preserve the length; on
failure they leave the list unchanged. -/
theorem store_frame (data : BookingRequest) (a u v : Appointment)
    (e1 e2 e3 : String) (appointmentId st : String) (s : StoreState)
    (hload : s.loading = false)
    (hvalid : data.doctorId ≠ "" ∧ data.patientName ≠ "" ∧
      data.patientEmail ≠ "")
    (hid : appointmentId ≠ "") :
    ((bookNewAppointment data (.ok a) s).1.appointments =
      s.appointments ++ [a]) ∧
    ((bookNewAppointment data (.error e1) s).1.appointments =
      s.appointments) ∧
    ((cancelUserAppointment appointmentId (.ok u) s).1.appointments =
      s.appointments.map fun ap =>
        if ap.id = appointmentId then u else ap) ∧
    ((cancelUserAppointment appointmentId (.error e2) s).1.appointments =
      s.appointments) ∧
    ((updateAppointmentStatus appointmentId st (.ok v) s).1.appointments =
      s.appointments.map fun ap =>
        if ap.id = appointmentId then v else ap) ∧
    ((updateAppointmentStatus appointmentId st (.error e3) s).1.appointments =
      s.appointments) ∧
    ((cancelUserAppointment appointmentId (.ok u) s).1.appointments.length =
      s.appointments.length) ∧
    ((updateAppointmentStatus appointmentId st (.ok v) s).1.appointments.length =
      s.appointments.length) ∧
    (∀ ap ∈ s.appointments, ap.id ≠ appointmentId →
      ap ∈ (cancelUserAppointment appointmentId (.ok u) s).1.appointments) ∧
    (∀ ap ∈ s.appointments, ap.id ≠ appointmentId →
      ap ∈ (updateAppointmentStatus appointmentId st (.ok v) s).1.appointments) := by
  obtain ⟨hdoc, hname, hmail⟩ := hvalid
  have hcanc : (cancelUserAppointment appointmentId (.ok u) s).1.appointments =
      s.appointments.map fun ap => if ap.id = appointmentId then u else ap := by
    simp [cancelUserAppointment, hid, hload]
  have hupd : (updateAppointmentStatus appointmentId st (.ok v) s).1.appointments =
      s.appointments.map fun ap => if ap.id = appointmentId then v else ap := by
    simp [updateAppointmentStatus, hid, hload]
  refine ⟨?_, ?_, hcanc, ?_, hupd, ?_, ?_, ?_, ?_, ?_⟩
  · simp [bookNewAppointment, hdoc, hname, hmail, hload]
  · simp [bookNewAppointment, hdoc, hname, hmail, hload]
  · simp [cancelUserAppointment, hid, hload]
  · simp [updateAppointmentStatus, hid, hload]
  · rw [hcanc, List.length_map]
  · rw [hupd, List.length_map]
  · intro ap hap hne
    rw [hcanc]
    exact List.mem_map.2 ⟨ap, hap, by rw [if_neg hne]⟩
  · intro ap hap hne
    rw [hupd]
    exact List.mem_map.2 ⟨ap, hap, by rw [if_neg hne]⟩

/-- C10 witness: concrete instances — successful booking appends, failed
booking leaves the list unchanged, and a status update targeting a
different id preserves the existing appointment. -/
theorem store_frame_witness :
    ((bookNewAppointment req0 (.ok appt0) store0).1.appointments =
      store0.appointments ++ [appt0]) ∧
    ((bookNewAppointment req0 (.error "boom") store0).1.appointments =
      store0.appointments) ∧
    appt0 ∈ (updateAppointmentStatus "a2" "cancelled"
      (.ok cancelled0) store0).1.appointments :=
  ⟨(store_frame req0 appt0 cancelled0 cancelled0 "x" "y" "z" "a2"
      "cancelled" store0 rfl ⟨by decide, by decide, by decide⟩
      (by decide)).1,
   (store_frame req0 appt0 cancelled0 cancelled0 "boom" "y" "z" "a2"
      "cancelled" store0 rfl ⟨by decide, by decide, by decide⟩
      (by decide)).2.1,
   (store_frame req0 appt0 cancelled0 cancelled0 "x" "y" "z" "a2"
      "cancelled" store0 rfl ⟨by decide, by decide, by decide⟩
      (by decide)).2.2.2.2.2.2.2.2.2 appt0 (by simp [store0])
      (by decide)⟩

end MedConnect
